import Mathlib

/-!
Shallow embedding of the Movary frontend (the `MovaryApp` class of
`index.js`): a single-route Express application that authenticates
against a Movary server, fetches the most recently added watchlist
entry, formats an optional display datetime, and renders one HTML page.

Outbound HTTP is modelled by oracles: a request value is built exactly
as the source builds it, and the environment answers with an
`HttpOutcome` (a transport error, or a status code plus parsed JSON
data).  Axios resolves the promise only for 2xx statuses and throws
otherwise, which the source catches; `axiosData` captures that.
JavaScript `null` / `undefined` field accesses are modelled with
`Option`, and JS string truthiness (empty string is falsy) with
`jsTruthy`.
-/

namespace Movary

/-- The configuration fields read in the `MovaryApp` constructor from
`process.env`.  `NEXT_DT` is optional (the code checks its truthiness);
the remaining fields are used as strings. -/
structure Config where
  PORT : String
  MOVERY_BASE_URL : String
  API_CLIENT_STRING : String
  USER_EMAIL : String
  USER_PASSWORD : String
  USER_ID : String
  NEXT_DT : Option String
deriving Repr, DecidableEq

/-- JS truthiness of a possibly-absent string: `undefined`, `null` and
`""` are falsy, every other string is truthy. -/
def jsTruthy : Option String → Bool
  | none => false
  | some s => s ≠ ""

/-- Outcome of one outbound HTTP call as seen by axios: either a
transport-level error (no response), or a response with a status code
and a parsed body. -/
inductive HttpOutcome (α : Type) where
  | transportError (message : String)
  | response (status : Nat) (data : α)
deriving Repr, DecidableEq

/-- Axios resolves with the response data exactly when the status is in
[200, 300) (the default `validateStatus`); otherwise the call throws,
which every call site of the source catches.  `none` is the thrown
case. -/
def axiosData {α : Type} : HttpOutcome α → Option α
  | .transportError _ => none
  | .response status data =>
      if 200 ≤ status ∧ status < 300 then some data else none

/-- Request body of the authentication call:
`{ email, password, rememberMe: true }`. -/
structure AuthRequestBody where
  email : String
  password : String
  rememberMe : Bool
deriving Repr, DecidableEq

/-- The full authentication POST request as `getAuthToken` issues it. -/
structure AuthRequest where
  url : String
  body : AuthRequestBody
  headers : List (String × String)
deriving Repr, DecidableEq

/-- Parsed body of an authentication response.  The source reads
`response.data.authToken`; an absent field is `none`. -/
structure AuthData where
  authToken : Option String
deriving Repr, DecidableEq

/-- The request built by `MovaryApp.getAuthToken`. -/
def authRequest (cfg : Config) : AuthRequest :=
  { url := cfg.MOVERY_BASE_URL ++ "/api/authentication/token"
  , body :=
      { email := cfg.USER_EMAIL
      , password := cfg.USER_PASSWORD
      , rememberMe := true }
  , headers :=
      [ ("Content-Type", "application/json")
      , ("X-Movary-Client", cfg.API_CLIENT_STRING) ] }

/-- `MovaryApp.getAuthToken`: POST the auth request; on success return
`response.data.authToken`, on any caught error return `null`.  `post`
is the environment's answer to the request. -/
def getAuthToken (cfg : Config)
    (post : AuthRequest → HttpOutcome AuthData) : Option String :=
  match axiosData (post (authRequest cfg)) with
  | none => none
  | some data => data.authToken

/-- A movie object inside a watchlist entry.  `releaseDate` is held as
optional because the renderer tests its truthiness before use. -/
structure Movie where
  title : String
  releaseDate : Option String
  overview : String
  posterPath : String
deriving Repr, DecidableEq

/-- One watchlist entry: `{ movie, addedAt }`; the `movie` field can be
absent, which the renderer checks. -/
structure WatchlistEntry where
  movie : Option Movie
  addedAt : String
deriving Repr, DecidableEq

/-- Parsed body of the watchlist response.  The source reads
`response.data.watchlist[0]`; when `watchlist` is absent that access
throws (caught by the surrounding try). -/
structure FetchData where
  watchlist : Option (List WatchlistEntry)
deriving Repr, DecidableEq

/-- The watchlist GET request with its headers and query parameters. -/
structure FetchRequest where
  url : String
  headers : List (String × String)
  params : List (String × String)
deriving Repr, DecidableEq

/-- The request built by `MovaryApp.getLastAddedMovie`. -/
def fetchRequest (cfg : Config) (token : String) : FetchRequest :=
  { url := cfg.MOVERY_BASE_URL ++ "/api/users/" ++ cfg.USER_ID
      ++ "/watchlist/movies"
  , headers :=
      [ ("accept", "application/json")
      , ("X-Movary-Token", token) ]
  , params :=
      [ ("page", "1")
      , ("limit", "1")
      , ("sortBy", "addedAt")
      , ("sortOrder", "desc") ] }

/-- `MovaryApp.getLastAddedMovie`: issue the single GET request, read
`response.data.watchlist[0]` and return it, or `null` when the call
throws, `watchlist` is absent (the index access throws and is caught),
or the list is empty.  The second component records the requests
issued, in order. -/
def getLastAddedMovie (cfg : Config) (token : String)
    (get : FetchRequest → HttpOutcome FetchData) :
    Option WatchlistEntry × List FetchRequest :=
  let req := fetchRequest cfg token
  let movieEntry : Option WatchlistEntry :=
    match axiosData (get req) with
    | none => none
    | some data =>
        match data.watchlist with
        | none => none
        | some entries => entries.head?
  (movieEntry, [req])

/-- JS `String.prototype.padStart(n, c)`: prepend copies of `c` until
the length reaches `n` (no change when already long enough). -/
def padStart (s : String) (n : Nat) (c : Char) : String :=
  String.mk (List.replicate (n - s.length) c) ++ s

/-- Local-time components of a successfully parsed JS `Date`, named
after the accessors the source calls (`getMonth` is 0-based). -/
structure JsDate where
  getMonth : Nat
  getDate : Nat
  getHours : Nat
  getMinutes : Nat
deriving Repr, DecidableEq

/-- Fallback message for an unset (or empty, hence falsy) `NEXT_DT`. -/
def notSetMsg : String := "NEXT_DT environment variable not set."

/-- Fallback message when `new Date(NEXT_DT)` is an Invalid Date. -/
def invalidMsg : String := "Invalid date format in environment variable."

/-- `MovaryApp.getDatetimeString`: format `NEXT_DT` as
`MM / DD - HHMM` (minute zero) or `MM / DD - H:MM`.  `parseDate`
models `new Date(s)` in the local time zone, `none` standing for an
Invalid Date (the `isNaN` check throws, caught by the inner try). -/
def getDatetimeString (nextDt : Option String)
    (parseDate : String → Option JsDate) : String :=
  if !(jsTruthy nextDt) then notSetMsg
  else
    match parseDate (nextDt.getD "") with
    | none => invalidMsg
    | some date =>
        let month := padStart (toString (date.getMonth + 1)) 2 '0'
        let day := padStart (toString date.getDate) 2 '0'
        let hours := date.getHours
        let minutes := date.getMinutes
        let timeString :=
          if minutes = 0 then toString hours ++ "00"
          else toString hours ++ ":" ++ padStart (toString minutes) 2 '0'
        month ++ " / " ++ day ++ " - " ++ timeString

/-- The release-year slot of the movie card:
`movieData.releaseDate ? movieData.releaseDate.substring(0, 4) : 'N/A'`. -/
def releaseYearText (releaseDate : Option String) : String :=
  if jsTruthy releaseDate then (releaseDate.getD "").take 4 else "N/A"

def cardLit0 : String :=
  "\n                    <div class=\"movie-card\">\n                        <img src=\""

def cardLit1 : String :=
  "\" alt=\""

def cardLit2 : String :=
  " Poster\" class=\"movie-poster\">\n                        <h1 class=\"movie-title\">🎥 "

def cardLit3 : String :=
  "</h1>\n                        <p class=\"movie-info\">"

def cardLit4 : String :=
  "</p><hr>\n                        <p class=\"movie-info movie-overview\">"

def cardLit5 : String :=
  "</p><hr>\n                        <p class=\"custom-message\">Showing: "

def cardLit6 : String :=
  "</p>\n                    </div>\n                "

/-- The movie-card fragment template of `MovaryApp.render`, with the
source's interpolation slots filled in order: poster path, title
(twice: `alt` text and heading), release-year text, overview, custom
message. -/
def cardHtml (movieData : Movie) (customMessage : String) : String :=
  cardLit0 ++ movieData.posterPath ++ cardLit1 ++ movieData.title
    ++ cardLit2 ++ movieData.title ++ cardLit3
    ++ releaseYearText movieData.releaseDate ++ cardLit4
    ++ movieData.overview ++ cardLit5 ++ customMessage ++ cardLit6

/-- The "no data" fragment of `MovaryApp.render`. -/
def noDataHtml : String :=
  "\n                    <div class=\"message\">\n                        <p>Could not retrieve movie data or no movies found.</p>\n                    </div>\n                "

/-- The generic error fragment of the catch branch of
`MovaryApp.render`. -/
def errorHtml : String :=
  "\n                <div class=\"error-message\">\n                    <h1>Server Error</h1>\n                    <p>An unexpected error occurred while processing your request.</p>\n                </div>\n            "

/-- Everything of the `res.send` template before the interpolated
fragment (doctype, head, style). -/
def shellHead : String :=
  "\n            <!DOCTYPE html>\n            <html lang=\"en\">\n            <head>\n                <meta charset=\"UTF-8\">\n                <meta name=\"viewport\" content=\"width=device-width, initial-scale=1.0\">\n                <title>📣 The Next Nest Feature 🍿</title>\n                <style>\n                    body \x7b\n                        font-family: Arial, sans-serif;\n                        background-color: #000000;\n                        color: #D3D3D3;\n                        display: flex;\n                        justify-content: center;\n                        align-items: center;\n                        height: 100vh;\n                        margin: 0;\n                    \x7d\n                    .movie-card \x7b\n                        background-color: #1A1A1A;\n                        padding: 2.5rem;\n                        border-radius: 12px;\n                        box-shadow: 0 4px 15px rgba(0, 0, 0, 0.5);\n                        text-align: center;\n                        max-width: 500px;\n                        width: 90%;\n                    \x7d\n                    .message, .error-message \x7b\n                        background-color: #1A1A1A;\n                        padding: 2rem;\n                        font-size: 1.2rem;\n                        color: #D3D3D3;\n                        border-radius: 12px;\n                        box-shadow: 0 4px 15px rgba(0, 0, 0, 0.5);\n                        text-align: center;\n                        max-width: 500px;\n                        width: 90%;\n                    \x7d\n                    .error-message \x7b\n                        color: #a51a1a;\n                        border: 1px solid #a51a1a;\n                    \x7d\n                    .movie-title \x7b\n                        font-size: 2.5rem;\n                        color: #D3D3D3;\n                        margin-bottom: 0.5rem;\n                    \x7d\n                    .movie-info \x7b\n                        font-size: 1.2rem;\n                        color: #D3D3D3;\n                        margin: 0.5rem 0;\n                    \x7d\n                    .movie-overview \x7b\n                        color: #A9A9A9;\n                    \x7d\n                    .movie-poster \x7b\n                        max-width: 100%;\n                        height: auto;\n                        border-radius: 8px;\n                        margin-bottom: 1rem;\n                    \x7d\n                    .custom-message \x7b\n                        font-size: 1.5rem;\n                        font-weight: bold;\n                        color: #D3D3D3;\n                        margin-bottom: 1rem;\n                    \x7d\n                </style>\n            </head>\n            <body>\n                "

/-- Everything of the `res.send` template after the fragment. -/
def shellTail : String :=
  "\n            </body>\n            </html>\n        "

/-- The fixed page shell around one fragment, as sent by `res.send`. -/
def pageShell (htmlContent : String) : String :=
  shellHead ++ htmlContent ++ shellTail

/-- The HTTP response Express sends: `res.send` of an HTML string with
the default status 200. -/
structure HttpResponse where
  status : Nat
  body : String
deriving Repr, DecidableEq

/-- An unexpected JS exception, known only by its message. -/
structure JsError where
  message : String
deriving Repr, DecidableEq

/-- The try block of `MovaryApp.render`: authenticate, fetch only when
a truthy token was obtained, and pick the card or no-data fragment.
Returns the chosen fragment and the list of watchlist requests issued.
Every branch is total: both HTTP helpers catch their own errors, so
the faithful embedding of this block cannot throw. -/
def renderTryBlock (cfg : Config)
    (post : AuthRequest → HttpOutcome AuthData)
    (get : FetchRequest → HttpOutcome FetchData)
    (customMessage : String) : String × List FetchRequest :=
  let apiToken := getAuthToken cfg post
  let fetched :=
    if jsTruthy apiToken then
      getLastAddedMovie cfg (apiToken.getD "") get
    else
      (none, [])
  let movieEntry := fetched.1
  let htmlContent :=
    match movieEntry with
    | some entry =>
        match entry.movie with
        | some movieData => cardHtml movieData customMessage
        | none => noDataHtml
    | none => noDataHtml
  (htmlContent, fetched.2)

/-- `MovaryApp.render`: compute the custom message, run the try block,
catch any exception into the generic error fragment, and send the
shell-wrapped fragment with status 200.  `pipelineError` injects an
unexpected exception thrown inside the try block (the faithful run is
`none`, since the block is total; the parameter makes the catch-all
handler's behaviour provable for every hypothetical exception). -/
def render (cfg : Config)
    (parseDate : String → Option JsDate)
    (post : AuthRequest → HttpOutcome AuthData)
    (get : FetchRequest → HttpOutcome FetchData)
    (pipelineError : Option JsError) : HttpResponse :=
  let customMessage := getDatetimeString cfg.NEXT_DT parseDate
  let htmlContent :=
    match pipelineError with
    | some _ => errorHtml
    | none => (renderTryBlock cfg post get customMessage).1
  { status := 200, body := pageShell htmlContent }

/-! Concrete sample environments, used to instantiate the theorems
below on closed inputs. -/

/-- A sample configuration in the shape the README prescribes. -/
def sampleCfg : Config :=
  { PORT := "3000"
  , MOVERY_BASE_URL := "https://movary.example"
  , API_CLIENT_STRING := "my-nodejs-app"
  , USER_EMAIL := "user@example.com"
  , USER_PASSWORD := "hunter2"
  , USER_ID := "1"
  , NEXT_DT := some "2025-09-13T22:00:00.000Z" }

/-- Local-time components of the README's sample `NEXT_DT`
(`getMonth` is 0-based, so September is 8). -/
def sampleDate : JsDate :=
  { getMonth := 8, getDate := 13, getHours := 22, getMinutes := 0 }

/-- A sample local-time parse function knowing one datetime string. -/
def sampleParse : String → Option JsDate := fun s =>
  if s = "2025-09-13T22:00:00.000Z" then some sampleDate else none

/-- A parse function on which every string is an Invalid Date. -/
def noParse : String → Option JsDate := fun _ => none

/-- An authentication endpoint that is unreachable. -/
def authFailPost : AuthRequest → HttpOutcome AuthData :=
  fun _ => .transportError "ECONNREFUSED"

/-- An authentication endpoint answering 200 with a token. -/
def authOkPost : AuthRequest → HttpOutcome AuthData :=
  fun _ => .response 200 { authToken := some "tok123" }

/-- A well-formed sample movie. -/
def sampleMovie : Movie :=
  { title := "Heat"
  , releaseDate := some "1995-12-15"
  , overview := "A heist thriller."
  , posterPath := "/poster/heat.jpg" }

/-- A well-formed sample watchlist entry. -/
def sampleEntry : WatchlistEntry :=
  { movie := some sampleMovie, addedAt := "2025-09-01T12:00:00Z" }

/-- A watchlist endpoint answering 200 with one well-formed entry. -/
def oneEntryGet : FetchRequest → HttpOutcome FetchData :=
  fun _ => .response 200 { watchlist := some [sampleEntry] }

/-- An entry whose nested `movie` field is absent. -/
def noMovieEntry : WatchlistEntry :=
  { movie := none, addedAt := "2025-09-01T12:00:00Z" }

/-- A watchlist endpoint whose single entry has no `movie` field. -/
def noMovieGet : FetchRequest → HttpOutcome FetchData :=
  fun _ => .response 200 { watchlist := some [noMovieEntry] }

/-- A movie whose release date has fewer than four characters. -/
def shortDateMovie : Movie :=
  { title := "Teaser"
  , releaseDate := some "19"
  , overview := "Untitled."
  , posterPath := "/poster/teaser.jpg" }

/-- A watchlist endpoint serving the short-release-date movie. -/
def shortDateGet : FetchRequest → HttpOutcome FetchData :=
  fun _ => .response 200
    { watchlist := some [{ movie := some shortDateMovie
                         , addedAt := "2025-09-02T12:00:00Z" }] }

/-- A movie whose strings carry active HTML markup. -/
def scriptMovie : Movie :=
  { title := "<script>alert(1)</script>"
  , releaseDate := some "2025-01-01"
  , overview := "<img src=x onerror=alert(2)>"
  , posterPath := "\"><script>steal()</script>" }

/-- A watchlist endpoint serving the markup-laden movie. -/
def scriptGet : FetchRequest → HttpOutcome FetchData :=
  fun _ => .response 200
    { watchlist := some [{ movie := some scriptMovie
                         , addedAt := "2025-09-03T12:00:00Z" }] }

/-! Helper lemmas shared by the claim theorems. -/

theorem padStart_length (s : String) (n : Nat) (c : Char)
    (h : s.length ≤ n) : (padStart s n c).length = n := by
  simp [padStart, String.length_append, String.mk_length]
  omega

theorem repr_length_le_two : ∀ n, n < 100 → (Nat.repr n).length ≤ 2 := by
  decide

theorem repr_hour_digits : ∀ n, n < 24 →
    (Nat.repr n).length = (if n < 10 then 1 else 2) := by
  decide

theorem take_four_length (s : String) (h : 4 ≤ s.length) :
    (s.take 4).length = 4 := by
  rw [String.take_eq]
  rw [show (String.mk (s.1.take 4)).length = (s.1.take 4).length from rfl]
  rw [List.length_take]
  have hd : s.1.length = s.length := rfl
  omega

theorem cardHtml_length_lb (movieData : Movie) (msg : String) :
    406 ≤ (cardHtml movieData msg).length := by
  simp only [cardHtml, String.length_append]
  have e0 : cardLit0.length = 80 := rfl
  have e1 : cardLit1.length = 7 := rfl
  have e2 : cardLit2.length = 81 := rfl
  have e3 : cardLit3.length = 52 := rfl
  have e4 : cardLit4.length = 70 := rfl
  have e5 : cardLit5.length = 68 := rfl
  have e6 : cardLit6.length = 48 := rfl
  omega

theorem cardHtml_ne_noData (movieData : Movie) (msg : String) :
    cardHtml movieData msg ≠ noDataHtml := by
  intro h
  have hl := congrArg String.length h
  have hlb := cardHtml_length_lb movieData msg
  have hn : noDataHtml.length = 167 := rfl
  omega

theorem cardHtml_ne_error (movieData : Movie) (msg : String) :
    cardHtml movieData msg ≠ errorHtml := by
  intro h
  have hl := congrArg String.length h
  have hlb := cardHtml_length_lb movieData msg
  have hn : errorHtml.length = 209 := rfl
  omega

/-- The try block always selects either a movie card (for the movie of
the fetched entry) or the no-data fragment. -/
theorem renderTryBlock_fragment (cfg : Config)
    (post : AuthRequest → HttpOutcome AuthData)
    (get : FetchRequest → HttpOutcome FetchData) (msg : String) :
    (∃ movieData, (renderTryBlock cfg post get msg).1 = cardHtml movieData msg)
    ∨ (renderTryBlock cfg post get msg).1 = noDataHtml := by
  cases htok : jsTruthy (getAuthToken cfg post) with
  | false => right; simp [renderTryBlock, htok]
  | true =>
      rcases hme : (getLastAddedMovie cfg ((getAuthToken cfg post).getD "") get).1
        with _ | entry
      · right; simp [renderTryBlock, htok, hme]
      · rcases hmv : entry.movie with _ | movieData
        · right; simp [renderTryBlock, htok, hme, hmv]
        · left; exact ⟨movieData, by simp [renderTryBlock, htok, hme, hmv]⟩

/-! Claim theorems. -/

/-- C2: any unexpected exception thrown in the request pipeline is
caught and answered with status 200 and the fixed shell around the
generic error fragment; the right-hand side is a closed constant, so
no text of the exception (message or upstream body) reaches the
response body. -/
theorem unexpectedErrorRendersGenericPage (cfg : Config)
    (parseDate : String → Option JsDate)
    (post : AuthRequest → HttpOutcome AuthData)
    (get : FetchRequest → HttpOutcome FetchData) (e : JsError) :
    render cfg parseDate post get (some e) =
      { status := 200, body := pageShell errorHtml } := by
  simp [render]

/-- Witness for C2: a concrete exception is answered by the fixed
error page. -/
theorem unexpectedErrorRendersGenericPageWitness :
    render sampleCfg sampleParse authOkPost oneEntryGet
        (some { message := "boom" }) =
      { status := 200, body := pageShell errorHtml } :=
  unexpectedErrorRendersGenericPage sampleCfg sampleParse authOkPost
    oneEntryGet { message := "boom" }

/-- C4: an unset (or empty, hence falsy) `NEXT_DT` yields the fixed
not-set fallback, and any non-empty string the local parse rejects
yields the fixed invalid-format fallback; `getDatetimeString` is total,
so no exception is raised. -/
theorem datetimeFallback (parseDate : String → Option JsDate) :
    getDatetimeString none parseDate = notSetMsg
    ∧ getDatetimeString (some "") parseDate = notSetMsg
    ∧ ∀ s : String, s ≠ "" → parseDate s = none →
        getDatetimeString (some s) parseDate = invalidMsg := by
  refine ⟨rfl, rfl, fun s hs hp => ?_⟩
  simp [getDatetimeString, jsTruthy, hs, hp]

/-- Witness for C4 at concrete malformed inputs. -/
theorem datetimeFallbackWitness :
    getDatetimeString none noParse = notSetMsg
    ∧ getDatetimeString (some "") noParse = notSetMsg
    ∧ getDatetimeString (some "not-a-date") noParse = invalidMsg :=
  ⟨(datetimeFallback noParse).1, (datetimeFallback noParse).2.1,
    (datetimeFallback noParse).2.2 "not-a-date" (by decide) rfl⟩

/-- C6: every failure mode of the authenticator — transport error,
non-2xx status, or a 2xx response with no `authToken` field — makes
`getAuthToken` return the absent value; the function is total, so no
exception escapes it. -/
theorem authFailureYieldsNoToken (cfg : Config)
    (post : AuthRequest → HttpOutcome AuthData) :
    (∀ m, post (authRequest cfg) = .transportError m →
      getAuthToken cfg post = none)
    ∧ (∀ st d, post (authRequest cfg) = .response st d →
        st < 200 ∨ 300 ≤ st → getAuthToken cfg post = none)
    ∧ (∀ st d, post (authRequest cfg) = .response st d →
        d.authToken = none → getAuthToken cfg post = none) := by
  refine ⟨fun m hm => ?_, fun st d hd hst => ?_, fun st d hd htok => ?_⟩
  · simp [getAuthToken, axiosData, hm]
  · simp only [getAuthToken, axiosData, hd]
    rw [if_neg (by omega)]
  · by_cases hst : 200 ≤ st ∧ st < 300
    · simp [getAuthToken, axiosData, hd, hst, htok]
    · simp [getAuthToken, axiosData, hd, hst]

/-- Witness for C6: an unreachable endpoint yields no token. -/
theorem authFailureYieldsNoTokenWitness :
    getAuthToken sampleCfg authFailPost = none :=
  (authFailureYieldsNoToken sampleCfg authFailPost).1 "ECONNREFUSED" rfl

/-- C1: whenever no (truthy) token is obtained the try block issues no
watchlist request, and the pipeline — which is a total function, hence
throws nothing — answers 200 with the shell around the no-data
fragment. -/
theorem authFailureSkipsFetchRendersEmpty (cfg : Config)
    (parseDate : String → Option JsDate)
    (post : AuthRequest → HttpOutcome AuthData)
    (get : FetchRequest → HttpOutcome FetchData)
    (h : jsTruthy (getAuthToken cfg post) = false) :
    (renderTryBlock cfg post get
        (getDatetimeString cfg.NEXT_DT parseDate)).2 = []
    ∧ render cfg parseDate post get none =
        { status := 200, body := pageShell noDataHtml } := by
  constructor
  · simp [renderTryBlock, h]
  · simp [render, renderTryBlock, h]

/-- Witness for C1: with an unreachable authenticator, no fetch request
is logged and the no-data page is served. -/
theorem authFailureSkipsFetchRendersEmptyWitness :
    (renderTryBlock sampleCfg authFailPost oneEntryGet
        (getDatetimeString sampleCfg.NEXT_DT sampleParse)).2 = []
    ∧ render sampleCfg sampleParse authFailPost oneEntryGet none =
        { status := 200, body := pageShell noDataHtml } :=
  authFailureSkipsFetchRendersEmpty sampleCfg sampleParse authFailPost
    oneEntryGet rfl

/-- C3: on every parsable datetime (non-empty input the local parse
accepts, with in-range date components) the formatter returns
`MM / DD - HHMM` when the minute is zero and `MM / DD - H:MM`
otherwise, with month and day zero-padded to two digits, the 24-hour
hour unpadded (one digit below 10, two digits otherwise), and the
minute zero-padded to two digits. -/
theorem datetimeFormatParsable (s : String)
    (parseDate : String → Option JsDate) (d : JsDate)
    (hs : s ≠ "") (hp : parseDate s = some d)
    (hmo : d.getMonth ≤ 11) (hda : d.getDate ≤ 31)
    (hho : d.getHours ≤ 23) (hmi : d.getMinutes ≤ 59) :
    ∃ mm dd ts : String,
      getDatetimeString (some s) parseDate = mm ++ " / " ++ dd ++ " - " ++ ts
      ∧ mm = padStart (toString (d.getMonth + 1)) 2 '0'
      ∧ mm.length = 2
      ∧ dd = padStart (toString d.getDate) 2 '0'
      ∧ dd.length = 2
      ∧ (d.getMinutes = 0 → ts = toString d.getHours ++ "00")
      ∧ (d.getMinutes ≠ 0 →
          ts = toString d.getHours ++ ":"
              ++ padStart (toString d.getMinutes) 2 '0'
          ∧ (padStart (toString d.getMinutes) 2 '0').length = 2)
      ∧ (toString d.getHours).length = (if d.getHours < 10 then 1 else 2) := by
  refine ⟨padStart (toString (d.getMonth + 1)) 2 '0',
    padStart (toString d.getDate) 2 '0',
    (if d.getMinutes = 0 then toString d.getHours ++ "00"
     else toString d.getHours ++ ":" ++ padStart (toString d.getMinutes) 2 '0'),
    ?_, rfl, ?_, rfl, ?_, ?_, ?_, ?_⟩
  · simp [getDatetimeString, jsTruthy, hs, hp]
  · exact padStart_length _ 2 '0' (repr_length_le_two _ (by omega))
  · exact padStart_length _ 2 '0' (repr_length_le_two _ (by omega))
  · intro h; simp [h]
  · intro h
    exact ⟨by simp [h],
      padStart_length _ 2 '0' (repr_length_le_two _ (by omega))⟩
  · simpa using repr_hour_digits d.getHours (by omega)

/-- Witness for C3: the README's sample datetime renders as
`09 / 13 - 2200`. -/
theorem datetimeFormatParsableWitness :
    getDatetimeString (some "2025-09-13T22:00:00.000Z") sampleParse
      = "09 / 13 - 2200"
    ∧ ∃ mm dd ts : String,
        getDatetimeString (some "2025-09-13T22:00:00.000Z") sampleParse
          = mm ++ " / " ++ dd ++ " - " ++ ts
        ∧ mm = padStart (toString (sampleDate.getMonth + 1)) 2 '0'
        ∧ mm.length = 2
        ∧ dd = padStart (toString sampleDate.getDate) 2 '0'
        ∧ dd.length = 2
        ∧ (sampleDate.getMinutes = 0 → ts = toString sampleDate.getHours ++ "00")
        ∧ (sampleDate.getMinutes ≠ 0 →
            ts = toString sampleDate.getHours ++ ":"
                ++ padStart (toString sampleDate.getMinutes) 2 '0'
            ∧ (padStart (toString sampleDate.getMinutes) 2 '0').length = 2)
        ∧ (toString sampleDate.getHours).length
            = (if sampleDate.getHours < 10 then 1 else 2) :=
  ⟨rfl, datetimeFormatParsable "2025-09-13T22:00:00.000Z" sampleParse
    sampleDate (by decide) (by decide) (by decide) (by decide) (by decide)
    (by decide)⟩

/-- C5: one invocation of the watchlist fetcher issues exactly one
request, with query parameters page=1, limit=1, sortBy=addedAt,
sortOrder=desc, the token in the `X-Movary-Token` header (no
`Authorization` bearer header), and an accept-JSON header; it returns
the head of the response's list (absent for an empty list) and the
absent value when the call fails. -/
theorem lastAddedMovieRequestSpec (cfg : Config) (token : String)
    (get : FetchRequest → HttpOutcome FetchData) :
    (getLastAddedMovie cfg token get).2 = [fetchRequest cfg token]
    ∧ (fetchRequest cfg token).params =
        [("page", "1"), ("limit", "1"), ("sortBy", "addedAt"),
         ("sortOrder", "desc")]
    ∧ (fetchRequest cfg token).headers =
        [("accept", "application/json"), ("X-Movary-Token", token)]
    ∧ (∀ p ∈ (fetchRequest cfg token).headers, p.1 ≠ "Authorization")
    ∧ (∀ m, get (fetchRequest cfg token) = .transportError m →
        (getLastAddedMovie cfg token get).1 = none)
    ∧ (∀ st d, get (fetchRequest cfg token) = .response st d →
        st < 200 ∨ 300 ≤ st → (getLastAddedMovie cfg token get).1 = none)
    ∧ (∀ st entries, get (fetchRequest cfg token) =
          .response st { watchlist := some entries } →
        200 ≤ st → st < 300 →
        (getLastAddedMovie cfg token get).1 = entries.head?) := by
  refine ⟨rfl, rfl, rfl, ?_, fun m hm => ?_, fun st d hd hst => ?_,
    fun st entries he h1 h2 => ?_⟩
  · intro p hp
    simp only [fetchRequest, List.mem_cons, List.not_mem_nil, or_false] at hp
    rcases hp with hp | hp <;> subst hp
    · decide
    · show "X-Movary-Token" ≠ "Authorization"
      decide
  · simp [getLastAddedMovie, axiosData, hm]
  · simp [getLastAddedMovie, axiosData, hd,
      (show ¬(200 ≤ st ∧ st < 300) by omega)]
  · simp [getLastAddedMovie, axiosData, he,
      (show 200 ≤ st ∧ st < 300 from ⟨h1, h2⟩)]

/-- Witness for C5: a 200 response with one entry yields that entry,
and exactly the one expected request was issued. -/
theorem lastAddedMovieRequestSpecWitness :
    (getLastAddedMovie sampleCfg "tok123" oneEntryGet).1 = [sampleEntry].head?
    ∧ (getLastAddedMovie sampleCfg "tok123" oneEntryGet).2 =
        [fetchRequest sampleCfg "tok123"] :=
  ⟨(lastAddedMovieRequestSpec sampleCfg "tok123" oneEntryGet).2.2.2.2.2.2
      200 [sampleEntry] rfl (by omega) (by omega),
   (lastAddedMovieRequestSpec sampleCfg "tok123" oneEntryGet).1⟩

/-- C7: when the fetched entry's nested `movie` field is absent, the
pipeline renders the no-data fragment, not the movie card. -/
theorem missingMovieRendersEmpty (cfg : Config)
    (parseDate : String → Option JsDate)
    (post : AuthRequest → HttpOutcome AuthData)
    (get : FetchRequest → HttpOutcome FetchData)
    (t : String) (entry : WatchlistEntry)
    (ht : getAuthToken cfg post = some t) (htt : t ≠ "")
    (he : (getLastAddedMovie cfg t get).1 = some entry)
    (hm : entry.movie = none) :
    render cfg parseDate post get none =
      { status := 200, body := pageShell noDataHtml } := by
  simp [render, renderTryBlock, ht, htt, jsTruthy, he, hm]

/-- Witness for C7: an authenticated request whose single entry lacks
the `movie` field serves the no-data page. -/
theorem missingMovieRendersEmptyWitness :
    render sampleCfg sampleParse authOkPost noMovieGet none =
      { status := 200, body := pageShell noDataHtml } :=
  missingMovieRendersEmpty sampleCfg sampleParse authOkPost noMovieGet
    "tok123" noMovieEntry rfl (by decide) rfl rfl

/-- C8 counterexample: a well-formed entry (nested movie present)
whose release date is the two-character string "19" renders a card
whose year slot is "19" — the first four characters of the release
date, but not a 4-character release year, so the claim as stated
fails on this input. -/
theorem shortReleaseDateCounterexample :
    (render sampleCfg sampleParse authOkPost shortDateGet none).body =
      pageShell (cardHtml shortDateMovie
        (getDatetimeString sampleCfg.NEXT_DT sampleParse))
    ∧ releaseYearText shortDateMovie.releaseDate = "19"
    ∧ ¬ ∃ year : String,
        year = releaseYearText shortDateMovie.releaseDate
        ∧ year.length = 4 := by
  refine ⟨rfl, by decide, ?_⟩
  rintro ⟨y, hy, h4⟩
  rw [show releaseYearText shortDateMovie.releaseDate = "19" by decide] at hy
  subst hy
  exact absurd h4 (by decide)

/-- C8 (amended): a well-formed entry renders a movie card that
contains the title, poster path and overview verbatim, and whose year
slot holds the first four characters of the release date when the
release date is present and non-empty (4 characters whenever the
release date has at least four characters), and the literal "N/A"
otherwise. -/
theorem cardContents (cfg : Config)
    (parseDate : String → Option JsDate)
    (post : AuthRequest → HttpOutcome AuthData)
    (get : FetchRequest → HttpOutcome FetchData)
    (t : String) (entry : WatchlistEntry) (movieData : Movie)
    (ht : getAuthToken cfg post = some t) (htt : t ≠ "")
    (he : (getLastAddedMovie cfg t get).1 = some entry)
    (hm : entry.movie = some movieData) :
    (render cfg parseDate post get none).body =
      pageShell (cardHtml movieData (getDatetimeString cfg.NEXT_DT parseDate))
    ∧ (∃ p q, (render cfg parseDate post get none).body
        = p ++ movieData.title ++ q)
    ∧ (∃ p q, (render cfg parseDate post get none).body
        = p ++ movieData.posterPath ++ q)
    ∧ (∃ p q, (render cfg parseDate post get none).body
        = p ++ movieData.overview ++ q)
    ∧ (∃ p q, (render cfg parseDate post get none).body
        = p ++ releaseYearText movieData.releaseDate ++ q)
    ∧ (jsTruthy movieData.releaseDate = true →
        releaseYearText movieData.releaseDate
          = (movieData.releaseDate.getD "").take 4)
    ∧ (jsTruthy movieData.releaseDate = true →
        4 ≤ (movieData.releaseDate.getD "").length →
        (releaseYearText movieData.releaseDate).length = 4)
    ∧ (jsTruthy movieData.releaseDate = false →
        releaseYearText movieData.releaseDate = "N/A") := by
  have hbody : (render cfg parseDate post get none).body =
      pageShell (cardHtml movieData (getDatetimeString cfg.NEXT_DT parseDate)) := by
    simp [render, renderTryBlock, ht, htt, jsTruthy, he, hm]
  refine ⟨hbody, ?_, ?_, ?_, ?_, fun h => by simp [releaseYearText, h],
    fun h h4 => ?_, fun h => by simp [releaseYearText, h]⟩
  · refine ⟨shellHead ++ cardLit0 ++ movieData.posterPath ++ cardLit1,
      cardLit2 ++ movieData.title ++ cardLit3
        ++ releaseYearText movieData.releaseDate ++ cardLit4
        ++ movieData.overview ++ cardLit5
        ++ getDatetimeString cfg.NEXT_DT parseDate ++ cardLit6 ++ shellTail,
      ?_⟩
    rw [hbody]
    simp [pageShell, cardHtml, String.append_assoc]
  · refine ⟨shellHead ++ cardLit0,
      cardLit1 ++ movieData.title ++ cardLit2 ++ movieData.title ++ cardLit3
        ++ releaseYearText movieData.releaseDate ++ cardLit4
        ++ movieData.overview ++ cardLit5
        ++ getDatetimeString cfg.NEXT_DT parseDate ++ cardLit6 ++ shellTail,
      ?_⟩
    rw [hbody]
    simp [pageShell, cardHtml, String.append_assoc]
  · refine ⟨shellHead ++ cardLit0 ++ movieData.posterPath ++ cardLit1
        ++ movieData.title ++ cardLit2 ++ movieData.title ++ cardLit3
        ++ releaseYearText movieData.releaseDate ++ cardLit4,
      cardLit5 ++ getDatetimeString cfg.NEXT_DT parseDate ++ cardLit6
        ++ shellTail, ?_⟩
    rw [hbody]
    simp [pageShell, cardHtml, String.append_assoc]
  · refine ⟨shellHead ++ cardLit0 ++ movieData.posterPath ++ cardLit1
        ++ movieData.title ++ cardLit2 ++ movieData.title ++ cardLit3,
      cardLit4 ++ movieData.overview ++ cardLit5
        ++ getDatetimeString cfg.NEXT_DT parseDate ++ cardLit6
        ++ shellTail, ?_⟩
    rw [hbody]
    simp [pageShell, cardHtml, String.append_assoc]
  · rw [show releaseYearText movieData.releaseDate
        = (movieData.releaseDate.getD "").take 4 by simp [releaseYearText, h]]
    exact take_four_length _ h4

/-- Witness for C8 (amended): the sample entry's card shows the year
"1995" and carries title, poster path and overview verbatim. -/
theorem cardContentsWitness :
    (render sampleCfg sampleParse authOkPost oneEntryGet none).body =
      pageShell (cardHtml sampleMovie
        (getDatetimeString sampleCfg.NEXT_DT sampleParse))
    ∧ (∃ p q, (render sampleCfg sampleParse authOkPost oneEntryGet none).body
        = p ++ sampleMovie.title ++ q)
    ∧ (∃ p q, (render sampleCfg sampleParse authOkPost oneEntryGet none).body
        = p ++ sampleMovie.posterPath ++ q)
    ∧ (∃ p q, (render sampleCfg sampleParse authOkPost oneEntryGet none).body
        = p ++ sampleMovie.overview ++ q)
    ∧ releaseYearText sampleMovie.releaseDate
        = (sampleMovie.releaseDate.getD "").take 4
    ∧ (releaseYearText sampleMovie.releaseDate).length = 4 := by
  have h := cardContents sampleCfg sampleParse authOkPost oneEntryGet
    "tok123" sampleEntry sampleMovie rfl (by decide) rfl rfl
  exact ⟨h.1, h.2.1, h.2.2.1, h.2.2.2.1, h.2.2.2.2.2.1 rfl,
    h.2.2.2.2.2.2.1 rfl (by decide)⟩

/-- C9: every request is answered with status 200, and the body is the
fixed page shell around one fragment, which is a movie card, the
no-data message, or the error message; the three fragment kinds are
pairwise distinct strings, so the embedded fragment is of exactly one
kind. -/
theorem responseAlwaysShellFragment (cfg : Config)
    (parseDate : String → Option JsDate)
    (post : AuthRequest → HttpOutcome AuthData)
    (get : FetchRequest → HttpOutcome FetchData)
    (exn : Option JsError) :
    (render cfg parseDate post get exn).status = 200
    ∧ ((∃ movieData, (render cfg parseDate post get exn).body =
          pageShell (cardHtml movieData (getDatetimeString cfg.NEXT_DT parseDate)))
       ∨ (render cfg parseDate post get exn).body = pageShell noDataHtml
       ∨ (render cfg parseDate post get exn).body = pageShell errorHtml)
    ∧ noDataHtml ≠ errorHtml
    ∧ (∀ movieData msg, cardHtml movieData msg ≠ noDataHtml)
    ∧ (∀ movieData msg, cardHtml movieData msg ≠ errorHtml) := by
  refine ⟨rfl, ?_, by decide, cardHtml_ne_noData, cardHtml_ne_error⟩
  cases exn with
  | some e => right; right; simp [render]
  | none =>
      rcases renderTryBlock_fragment cfg post get
          (getDatetimeString cfg.NEXT_DT parseDate) with ⟨movieData, hmd⟩ | hnd
      · left; exact ⟨movieData, by simp [render, hmd]⟩
      · right; left; simp [render, hnd]

/-- Witness for C9: a concrete successful request is a 200 page whose
body is the shell around one of the three fragments. -/
theorem responseAlwaysShellFragmentWitness :
    (render sampleCfg sampleParse authOkPost oneEntryGet none).status = 200
    ∧ ((∃ movieData,
          (render sampleCfg sampleParse authOkPost oneEntryGet none).body =
            pageShell (cardHtml movieData
              (getDatetimeString sampleCfg.NEXT_DT sampleParse)))
       ∨ (render sampleCfg sampleParse authOkPost oneEntryGet none).body =
            pageShell noDataHtml
       ∨ (render sampleCfg sampleParse authOkPost oneEntryGet none).body =
            pageShell errorHtml) := by
  have h := responseAlwaysShellFragment sampleCfg sampleParse authOkPost
    oneEntryGet none
  exact ⟨h.1, h.2.1⟩

/-- C10: the renderer escapes nothing — the body of a card response is
the literal template pieces interleaved with the upstream title (in
both slots), poster path, release-year text and overview exactly as
received, so markup in those strings reaches the page unmodified. -/
theorem verbatimEmbedding (cfg : Config)
    (parseDate : String → Option JsDate)
    (post : AuthRequest → HttpOutcome AuthData)
    (get : FetchRequest → HttpOutcome FetchData)
    (t : String) (entry : WatchlistEntry) (movieData : Movie)
    (ht : getAuthToken cfg post = some t) (htt : t ≠ "")
    (he : (getLastAddedMovie cfg t get).1 = some entry)
    (hm : entry.movie = some movieData) :
    (render cfg parseDate post get none).body =
      shellHead ++ cardLit0 ++ movieData.posterPath ++ cardLit1
        ++ movieData.title ++ cardLit2 ++ movieData.title ++ cardLit3
        ++ releaseYearText movieData.releaseDate ++ cardLit4
        ++ movieData.overview ++ cardLit5
        ++ getDatetimeString cfg.NEXT_DT parseDate ++ cardLit6
        ++ shellTail := by
  simp [render, renderTryBlock, ht, htt, jsTruthy, he, hm, pageShell,
    cardHtml, String.append_assoc]

/-- Witness for C10: a title with a script tag, a poster path breaking
out of its attribute, and an overview with an onerror payload all
appear character-for-character in the served body. -/
theorem verbatimEmbeddingWitness :
    (render sampleCfg sampleParse authOkPost scriptGet none).body =
      shellHead ++ cardLit0 ++ "\"><script>steal()</script>" ++ cardLit1
        ++ "<script>alert(1)</script>" ++ cardLit2
        ++ "<script>alert(1)</script>" ++ cardLit3
        ++ releaseYearText scriptMovie.releaseDate ++ cardLit4
        ++ "<img src=x onerror=alert(2)>" ++ cardLit5
        ++ getDatetimeString sampleCfg.NEXT_DT sampleParse ++ cardLit6
        ++ shellTail := by
  have h := verbatimEmbedding sampleCfg sampleParse authOkPost scriptGet
    "tok123" { movie := some scriptMovie, addedAt := "2025-09-03T12:00:00Z" }
    scriptMovie rfl (by decide) rfl rfl
  exact h

end Movary
